import Mathlib

/- Shallow embedding of the usrv-service-adapters connection-lifecycle core:
   the close-notification fan-out (Notifier), the dial-retry policies
   (Periodic, ExpBackoff) and the AMQP / Redis / etcd service adapters.
   Go time.Duration values are modelled as Int (nanoseconds); the uint32
   attempt counter is a Nat reduced modulo 2^32; randomness is supplied as
   an explicit draw argument; channel traffic is modelled as an explicit
   event trace. -/

/- Error values of the adapters package and of package dial.  Go represents
   errors as values compared by identity; configInvalid carries the setting
   key and the offending value that Redis.Config formats into its message. -/
inductive AdapterErr where
  | alreadyConnected
  | timeout
  | connectionClosed
  | configInvalid (key val : String)
deriving DecidableEq

/- One observable action performed on a listener channel by Notifier.NotifyAll:
   a value received on the channel, or the channel being closed. -/
inductive NotifyEvent where
  | recv (lid : Nat) (e : AdapterErr)
  | closed (lid : Nat)
deriving DecidableEq

/- adapters.Notifier: a registry of listener channels, identified by Nat. -/
structure Notifier where
  listeners : List Nat
deriving DecidableEq

/- Notifier.Add: append the listener to the registry. -/
def Notifier.add (n : Notifier) (l : Nat) : Notifier :=
  ⟨n.listeners ++ [l]⟩

/- Notifier.NotifyAll: for each registered listener, send err on its channel
   when err is non-nil, then close the channel; afterwards the registry is
   emptied.  The first component is the trace of channel actions in order. -/
def Notifier.notifyAll (n : Notifier) (err : Option AdapterErr) :
    List NotifyEvent × Notifier :=
  ((n.listeners.map (fun l =>
      match err with
      | some e => [NotifyEvent.recv l e, NotifyEvent.closed l]
      | none => [NotifyEvent.closed l])).flatten,
   ⟨[]⟩)

/- The two concrete retry generators of package dial, with the maxAttempts
   bound captured (after clamping) the way the Go closures capture it. -/
inductive PolicyKind where
  | periodic (maxAttempts : Nat) (retry : Int)
  | expBackoff (maxAttempts : Nat) (retryUnit : Int)
deriving DecidableEq

/- dialPolicyImpl: the shared policy state; curAttempt is a uint32. -/
structure DialPolicy where
  kind : PolicyKind
  curAttempt : Nat
deriving DecidableEq

def uint32Mod (n : Nat) : Nat := n % 4294967296

/- Result of rand.Int63n(bound): some value in [0, bound), determined here by
   the explicit draw r supplied for the call. -/
def int63n (r bound : Nat) : Nat := r % bound

/- The retryGenerator closures built by Periodic and ExpBackoff.  Note that
   the Go ExpBackoff generator computes time.Duration(rand.Int63n(1 << curAttempt))
   and never multiplies by the captured retryUnit. -/
def retryGenerator (k : PolicyKind) (curAttempt : Nat) (r : Nat) : Option Int :=
  match k with
  | PolicyKind.periodic maxAttempts retry =>
      if curAttempt > maxAttempts then none else some retry
  | PolicyKind.expBackoff maxAttempts _retryUnit =>
      if curAttempt > maxAttempts then none
      else some (Int.ofNat (int63n r (2 ^ curAttempt)))

/- dialPolicyImpl.NextRetry: increment the uint32 counter, then run the
   generator on the new attempt number.  none models the ErrTimeout error. -/
def nextRetry (d : DialPolicy) (r : Nat) : Option Int × DialPolicy :=
  let c := uint32Mod (d.curAttempt + 1)
  (retryGenerator d.kind c r, ⟨d.kind, c⟩)

/- dialPolicyImpl.ResetAttempts. -/
def resetAttempts (d : DialPolicy) : DialPolicy :=
  ⟨d.kind, 0⟩

/- dial.Periodic: maxAttempts below 1 is clamped to 1. -/
def Periodic (maxAttempts : Nat) (retry : Int) : DialPolicy :=
  ⟨PolicyKind.periodic (if maxAttempts < 1 then 1 else maxAttempts) retry, 0⟩

/- dial.ExpBackoff: maxAttempts clamped into [1, 32]. -/
def ExpBackoff (maxAttempts : Nat) (retryUnit : Int) : DialPolicy :=
  ⟨PolicyKind.expBackoff
      (if maxAttempts > 32 then 32 else if maxAttempts < 1 then 1 else maxAttempts)
      retryUnit, 0⟩

/- The policy state after n consecutive NextRetry calls (the draw is
   irrelevant to the state transition). -/
def policyAfter (d : DialPolicy) : Nat → DialPolicy
  | 0 => d
  | n + 1 => (nextRetry (policyAfter d n) 0).2

/- The value returned by the (n+1)-st NextRetry call on a fresh policy d,
   i.e. the call made after n earlier calls. -/
def callResult (d : DialPolicy) (n : Nat) : Option Int :=
  (nextRetry (policyAfter d n) 0).1

theorem policyAfter_eq (k : PolicyKind) (n : Nat) :
    policyAfter ⟨k, 0⟩ n = ⟨k, n % 4294967296⟩ := by
  induction n with
  | zero => simp [policyAfter]
  | succ n ih =>
      simp only [policyAfter, ih, nextRetry, uint32Mod]
      congr 1
      omega

theorem callResult_periodic (maxA : Nat) (t : Int) (n : Nat) :
    callResult (Periodic maxA t) n =
      (if (n + 1) % 4294967296 > (if maxA < 1 then 1 else maxA) then none
       else some t) := by
  simp only [callResult, Periodic, policyAfter_eq, nextRetry, uint32Mod,
    retryGenerator]
  congr 2
  omega

/- strconv.Atoi support: the numeric value of a decimal digit, none otherwise. -/
def digitVal (c : Char) : Option Nat :=
  if ('0') ≤ c ∧ c ≤ ('9') then some (Char.toNat c - Char.toNat ('0')) else none

def digitsToNatAux (acc : Nat) : List Char → Option Nat
  | [] => some acc
  | c :: cs =>
      match digitVal c with
      | none => none
      | some d => digitsToNatAux (acc * 10 + d) cs

/- strconv.Atoi: an optional sign followed by one or more decimal digits,
   rejected when the value falls outside the 64-bit int range. -/
def atoi (str : String) : Option Int :=
  let cs := str.data
  let signed :=
    match cs with
    | '-' :: rest => (true, rest)
    | '+' :: rest => (false, rest)
    | _ => (false, cs)
  match signed.2 with
  | [] => none
  | ds =>
      match digitsToNatAux 0 ds with
      | none => none
      | some n =>
          let v : Int := if signed.1 then -(n : Int) else (n : Int)
          if v < -(2 ^ 63) ∨ (2 ^ 63 - 1) < v then none else some v

/- Two's-complement wrap of an Int into the int64 range, for the
   time.Duration(timeout) * time.Second multiplication. -/
def wrap64 (x : Int) : Int :=
  (x + 2 ^ 63) % 2 ^ 64 - 2 ^ 63

/- The usrv Amqp adapter state (service/amqp).  conn models the *amqp.Connection
   pointer as present/absent. -/
structure AmqpState where
  endpoint : String
  dialPolicy : DialPolicy
  connected : Bool
  conn : Option Unit
  notifier : Notifier
deriving DecidableEq

/- The usrv Redis adapter state (service/redis).  pool carries a generation
   number so that a freshly allocated pool is distinguishable from the pool
   it replaces; poolGen counts the pool allocations made so far. -/
structure RedisState where
  endpoint : String
  password : String
  db : Int
  connectionTimeout : Int
  dialPolicy : DialPolicy
  connected : Bool
  pool : Option Nat
  poolGen : Nat
  notifier : Notifier
deriving DecidableEq

/- The usrv Etcd adapter state (service/etcd). -/
structure EtcdState where
  hosts : List String
  connected : Bool
  dialPolicy : DialPolicy
  notifier : Notifier
deriving DecidableEq

/- Outcome of the shared connect-retry loop: the backend connect succeeded,
   or NextRetry reported exhaustion.  Either way the final policy state is
   carried out of the loop. -/
inductive DialOutcome where
  | connectedAt (p : DialPolicy)
  | timedOut (p : DialPolicy)
deriving DecidableEq

/- The retry loop shared by Amqp.Dial, Etcd.Dial and Redis.dialPoolConnection:
   attempt the backend connect; on failure ask NextRetry for a wait interval,
   returning the timeout error if the policy is exhausted, else sleep for the
   interval and retry.  backend k tells whether the k-th connect attempt of
   this call succeeds; rnd supplies the random draw for each NextRetry call;
   the accumulated list records each interval slept. -/
def dialLoop (backend : Nat → Bool) (rnd : Nat → Nat) :
    Nat → DialPolicy → Nat → List Int → Option (DialOutcome × List Int)
  | 0, _, _, _ => none
  | fuel + 1, p, k, waits =>
      if backend k then some (DialOutcome.connectedAt p, waits)
      else
        match nextRetry p (rnd (k + 1)) with
        | (none, p2) => some (DialOutcome.timedOut p2, waits)
        | (some w, p2) => dialLoop backend rnd fuel p2 (k + 1) (waits ++ [w])

/- Amqp.Dial: error out if already connected; otherwise make one initial
   NextRetry call whose result is ignored, then run the connect-retry loop.
   On success set connected, store the handle and reset the policy; on
   exhaustion surface dial.ErrTimeout with conn left nil.  none models
   running out of fuel (the Go loop not terminating). -/
def amqpDial (fuel : Nat) (s : AmqpState) (backend : Nat → Bool)
    (rnd : Nat → Nat) : Option (Option AdapterErr × AmqpState × List Int) :=
  if s.connected then some (some AdapterErr.alreadyConnected, s, [])
  else
    match dialLoop backend rnd fuel (nextRetry s.dialPolicy (rnd 0)).2 0 [] with
    | none => none
    | some (DialOutcome.timedOut p2, waits) =>
        some (some AdapterErr.timeout,
              { s with dialPolicy := p2, conn := none }, waits)
    | some (DialOutcome.connectedAt p2, waits) =>
        some (none,
              { s with dialPolicy := resetAttempts p2, conn := some (),
                       connected := true }, waits)

/- Amqp.Close: no-op unless connected; otherwise close the connection,
   notify all listeners with ErrConnectionClosed, clear the handle and
   mark disconnected. -/
def amqpClose (s : AmqpState) : AmqpState × List NotifyEvent :=
  if s.connected then
    let r := s.notifier.notifyAll (some AdapterErr.connectionClosed)
    ({ s with conn := none, connected := false, notifier := r.2 }, r.1)
  else (s, [])

/- Amqp.Config: the only recognized key is endpoint; its presence (not a
   value comparison) sets needsReset.  On reset while connected the
   connection is closed, listeners are notified with nil and the adapter
   is left disconnected.  The call never fails. -/
def amqpConfig (s : AmqpState) (params : List (String × String)) :
    Option AdapterErr × AmqpState × List NotifyEvent :=
  match params.lookup ("endpoint") with
  | none => (none, s, [])
  | some v =>
      let s1 := { s with endpoint := v }
      if s1.connected then
        let r := s1.notifier.notifyAll none
        (none, { s1 with conn := none, connected := false, notifier := r.2 }, r.1)
      else (none, s1, [])

/- Redis.setupPool: allocate a fresh pool, mark connected, reset the policy. -/
def setupPool (s : RedisState) : RedisState :=
  { s with pool := some (s.poolGen + 1), poolGen := s.poolGen + 1,
           connected := true, dialPolicy := resetAttempts s.dialPolicy }

/- Redis.Dial: error out if already connected, else set up the pool. -/
def redisDial (s : RedisState) : Option AdapterErr × RedisState :=
  if s.connected then (some AdapterErr.alreadyConnected, s)
  else (none, setupPool s)

/- Redis.Close: no-op unless connected; otherwise notify all listeners with
   ErrConnectionClosed, close the pool (the pool field itself is not
   cleared) and mark disconnected. -/
def redisClose (s : RedisState) : RedisState × List NotifyEvent :=
  if s.connected then
    let r := s.notifier.notifyAll (some AdapterErr.connectionClosed)
    ({ s with notifier := r.2, connected := false }, r.1)
  else (s, [])

/- The tail of Redis.Config after the four key scans: when any recognized
   key was present, re-init the pool via setupPool and then (the pool setup
   has just set connected) notify listeners with nil. -/
def redisConfigFinish (s : RedisState) (needsReset : Bool) :
    Option AdapterErr × RedisState × List NotifyEvent :=
  if needsReset then
    let s2 := setupPool s
    if s2.connected then
      let r := s2.notifier.notifyAll none
      (none, { s2 with notifier := r.2 }, r.1)
    else (none, s2, [])
  else (none, s, [])

/- Redis.Config: scan endpoint, password, db, connTimeout in order, writing
   each recognized value to the state as it is scanned; a malformed numeric
   value aborts the call right there (fields already scanned keep their new
   values).  Go formats the error as: invalid value for setting <key>: <val>. -/
def redisConfig (s : RedisState) (params : List (String × String)) :
    Option AdapterErr × RedisState × List NotifyEvent :=
  let e1 :=
    match params.lookup ("endpoint") with
    | some v => ({ s with endpoint := v }, true)
    | none => (s, false)
  let e2 :=
    match params.lookup ("password") with
    | some v => ({ e1.1 with password := v }, true)
    | none => e1
  match params.lookup ("db") with
  | some v =>
      match atoi v with
      | none => (some (AdapterErr.configInvalid ("db") v), e2.1, [])
      | some n =>
          let e3 := ({ e2.1 with db := n }, true)
          match params.lookup ("connTimeout") with
          | some w =>
              match atoi w with
              | none => (some (AdapterErr.configInvalid ("connTimeout") w), e3.1, [])
              | some m =>
                  redisConfigFinish
                    { e3.1 with connectionTimeout := wrap64 (m * 1000000000) } true
          | none => redisConfigFinish e3.1 e3.2
  | none =>
      match params.lookup ("connTimeout") with
      | some w =>
          match atoi w with
          | none => (some (AdapterErr.configInvalid ("connTimeout") w), e2.1, [])
          | some m =>
              redisConfigFinish
                { e2.1 with connectionTimeout := wrap64 (m * 1000000000) } true
      | none => redisConfigFinish e2.1 e2.2

/- Etcd.Dial: a no-op returning nil when already connected; an error when no
   hosts are configured; otherwise reset the policy, make the initial
   NextRetry call (result ignored) and run the SetCluster retry loop. -/
def etcdDial (fuel : Nat) (s : EtcdState) (setCluster : Nat → Bool)
    (rnd : Nat → Nat) : Option (Option AdapterErr × EtcdState × List Int) :=
  if s.connected then some (none, s, [])
  else if s.hosts.length = 0 then
    some (some (AdapterErr.configInvalid ("hosts") ("")), s, [])
  else
    match dialLoop setCluster rnd fuel
        (nextRetry (resetAttempts s.dialPolicy) (rnd 0)).2 0 [] with
    | none => none
    | some (DialOutcome.timedOut p2, waits) =>
        some (some AdapterErr.timeout, { s with dialPolicy := p2 }, waits)
    | some (DialOutcome.connectedAt p2, waits) =>
        some (none,
              { s with dialPolicy := resetAttempts p2, connected := true }, waits)

/- Etcd.Close: unconditionally close the client, notify all listeners with
   ErrConnectionClosed and mark disconnected — there is no connected guard. -/
def etcdClose (s : EtcdState) : EtcdState × List NotifyEvent :=
  let r := s.notifier.notifyAll (some AdapterErr.connectionClosed)
  ({ s with notifier := r.2, connected := false }, r.1)

/- A backend whose first two connect attempts fail and whose third succeeds. -/
def failTwiceBackend (k : Nat) : Bool := decide (2 ≤ k)

/- A degenerate random source (the draws are irrelevant to Periodic). -/
def zeroDraws (_k : Nat) : Nat := 0

theorem notify_count_recv (L : List Nat) (e : AdapterErr) (l : Nat) :
    ((L.map (fun a => [NotifyEvent.recv a e, NotifyEvent.closed a])).flatten).count
        (NotifyEvent.recv l e) = L.count l := by
  induction L with
  | nil => rfl
  | cons a L ih =>
      by_cases h : a = l
      · subst h
        simp [List.count_cons, ih]
      · simp [List.count_cons, ih, h]

theorem notify_count_closed (L : List Nat) (e : AdapterErr) (l : Nat) :
    ((L.map (fun a => [NotifyEvent.recv a e, NotifyEvent.closed a])).flatten).count
        (NotifyEvent.closed l) = L.count l := by
  induction L with
  | nil => rfl
  | cons a L ih =>
      by_cases h : a = l
      · subst h
        simp [List.count_cons, ih]
      · simp [List.count_cons, ih, h]

theorem notify_none_events (L : List Nat) :
    ((L.map (fun a => [NotifyEvent.closed a])).flatten) = L.map NotifyEvent.closed := by
  induction L with
  | nil => rfl
  | cons a L ih => simp [ih]

theorem notify_map_closed_count_recv (L : List Nat) (e : AdapterErr) (l : Nat) :
    (L.map NotifyEvent.closed).count (NotifyEvent.recv l e) = 0 := by
  induction L with
  | nil => rfl
  | cons a L ih => simp [List.count_cons, ih]

/-- C1: NotifyAll with a non-nil error delivers that error to each registered
listener exactly once (once per registration) and then closes the listener;
with a nil error it only closes each listener (the reset signal); in both
cases the registry is empty afterwards, and with zero registered listeners
the call is a no-op. -/
theorem notifier_notifyAll_exactly_once (L : List Nat) (e : AdapterErr) (l : Nat) :
    (Notifier.notifyAll ⟨L⟩ (some e)).2 = ⟨[]⟩ ∧
    (Notifier.notifyAll ⟨L⟩ none).2 = ⟨[]⟩ ∧
    Notifier.notifyAll ⟨([] : List Nat)⟩ (some e) = ([], ⟨[]⟩) ∧
    Notifier.notifyAll ⟨([] : List Nat)⟩ none = ([], ⟨[]⟩) ∧
    (Notifier.notifyAll ⟨L⟩ none).1 = L.map NotifyEvent.closed ∧
    (Notifier.notifyAll ⟨L⟩ (some e)).1.count (NotifyEvent.recv l e) = L.count l ∧
    (Notifier.notifyAll ⟨L⟩ (some e)).1.count (NotifyEvent.closed l) = L.count l ∧
    (Notifier.notifyAll ⟨L⟩ none).1.count (NotifyEvent.recv l e) = 0 := by
  refine ⟨rfl, rfl, rfl, rfl, ?_, ?_, ?_, ?_⟩
  · exact notify_none_events L
  · exact notify_count_recv L e l
  · exact notify_count_closed L e l
  · rw [show (Notifier.notifyAll ⟨L⟩ none).1
          = (L.map (fun a => [NotifyEvent.closed a])).flatten from rfl,
        notify_none_events L]
    exact notify_map_closed_count_recv L e l

/- The C3 spec sentence as a predicate on the constructor arguments: the
   policy returns the fixed interval on each of the first maxAttempts calls,
   reports exhaustion on the following call, returns the interval again after
   ResetAttempts, and a maxAttempts below 1 is clamped to 1. -/
def periodicSpecClaim (maxA : Nat) (t : Int) : Prop :=
  (∀ n, n < maxA → callResult (Periodic maxA t) n = some t) ∧
  callResult (Periodic maxA t) maxA = none ∧
  callResult (resetAttempts (policyAfter (Periodic maxA t) (maxA + 1))) 0 = some t ∧
  Periodic 0 t = Periodic 1 t

/-- C3 counterexample: with maxAttempts = 2^32 - 1 (a legal uint32 value), the
uint32 attempt counter wraps to 0 on the (maxAttempts+1)-st NextRetry call, so
that call returns the interval instead of reporting exhaustion. -/
theorem periodic_claim_fails_at_uint32_max : ¬ periodicSpecClaim 4294967295 10 := by
  intro h
  have h2 := h.2.1
  rw [callResult_periodic] at h2
  norm_num at h2
  exact Option.some_ne_none 10 h2

/-- C3: amended — for every maxAttempts with 1 ≤ maxAttempts ≤ 2^32 - 2 and
every interval t, Periodic(maxAttempts, t) returns (t, no error) exactly
maxAttempts consecutive times, reports exhaustion on the next call, returns
(t, no error) again after ResetAttempts, and a maxAttempts below 1 is clamped
to 1; at maxAttempts = 2^32 - 1 the uint32 counter wraps and exhaustion is
never reported. -/
theorem periodic_policy_bounded_correct (maxA : Nat) (t : Int)
    (h1 : 1 ≤ maxA) (h2 : maxA ≤ 4294967294) :
    periodicSpecClaim maxA t := by
  have hclamp : (if maxA < 1 then 1 else maxA) = maxA := by
    split <;> omega
  have p1 : ∀ n, n < maxA → callResult (Periodic maxA t) n = some t := by
    intro n hn
    rw [callResult_periodic, hclamp, Nat.mod_eq_of_lt (by omega), if_neg (by omega)]
  refine ⟨p1, ?_, ?_, ?_⟩
  · rw [callResult_periodic, hclamp, Nat.mod_eq_of_lt (by omega), if_pos (by omega)]
  · have hr : resetAttempts (policyAfter (Periodic maxA t) (maxA + 1))
        = Periodic maxA t := by
      rw [Periodic, policyAfter_eq]
      rfl
    rw [hr]
    exact p1 0 (by omega)
  · rfl

/-- C3 witness: the amended statement instantiated at Periodic(3, 7). -/
theorem periodic_policy_bounded_correct_witness :
    1 ≤ 3 ∧ 3 ≤ 4294967294 ∧ periodicSpecClaim 3 7 :=
  ⟨by norm_num, by norm_num,
   periodic_policy_bounded_correct 3 7 (by norm_num) (by norm_num)⟩

/-- C4: the ExpBackoff generator never multiplies the random draw by the
caller-supplied retryUnit — the first NextRetry call on ExpBackoff(10, 1s)
with random draw 1 yields 1 (one nanosecond), the returned interval is
identical for any two units, and it always equals the raw draw reduced into
[0, 2^attempt), contradicting the generator's own documentation that the
interval is in the specified unit. -/
theorem expBackoff_ignores_retry_unit :
    (nextRetry (ExpBackoff 10 1000000000) 1).1 = some 1 ∧
    (∀ (u1 u2 : Int) (r : Nat),
        (nextRetry (ExpBackoff 10 u1) r).1 = (nextRetry (ExpBackoff 10 u2) r).1) ∧
    (∀ (u : Int) (r : Nat),
        (nextRetry (ExpBackoff 10 u) r).1 = some (Int.ofNat (r % 2))) := by
  refine ⟨rfl, ?_, ?_⟩ <;> intros <;> rfl

/-- C2 counterexample: with a Periodic(1, 10ms) policy (10ms = 10000000 ns)
and a backend that fails twice then succeeds, Dial consumes the single
allowed NextRetry with its pre-loop call, so the first connect failure
already exhausts the policy: Dial returns the timeout error after zero retry
waits and never reaches the Connected state. -/
theorem amqpDial_periodic1_fail_twice_times_out :
    amqpDial 8
      { endpoint := ("E"), dialPolicy := Periodic 1 10000000, connected := false,
        conn := none, notifier := ⟨[]⟩ } failTwiceBackend zeroDraws
      = some (some AdapterErr.timeout,
          { endpoint := ("E"), dialPolicy := ⟨PolicyKind.periodic 1 10000000, 2⟩,
            connected := false, conn := none, notifier := ⟨[]⟩ }, []) := rfl

/-- C2: amended — Dial on a disconnected adapter retries the backend connect
after each failure and surfaces the timeout error exactly when the policy
reports exhaustion, otherwise ending Connected; because Dial spends one
NextRetry before its first connect attempt, it takes a Periodic(3, t) policy
(not Periodic(1, t)) for a backend that fails twice then succeeds to reach
Connected after exactly 2 retry waits of t each. -/
theorem amqpDial_retry_behavior :
    (∀ t : Int,
        amqpDial 8
          { endpoint := ("E"), dialPolicy := Periodic 3 t, connected := false,
            conn := none, notifier := ⟨[]⟩ } failTwiceBackend zeroDraws
          = some (none,
              { endpoint := ("E"), dialPolicy := Periodic 3 t, connected := true,
                conn := some (), notifier := ⟨[]⟩ }, [t, t])) ∧
    (∀ (fuel : Nat) (s : AmqpState) (b : Nat → Bool) (rnd : Nat → Nat)
        (res : Option AdapterErr) (s2 : AmqpState) (ws : List Int),
        s.connected = false →
        amqpDial fuel s b rnd = some (res, s2, ws) →
        (res = none ∧ s2.connected = true) ∨
        (res = some AdapterErr.timeout ∧ s2.connected = false)) := by
  constructor
  · intro t
    rfl
  · intro fuel s b rnd res s2 ws hconn heq
    rw [amqpDial, if_neg (by simp [hconn])] at heq
    rcases hdl : dialLoop b rnd fuel (nextRetry s.dialPolicy (rnd 0)).2 0 []
      with _ | ⟨out, waits⟩
    · rw [hdl] at heq
      exact absurd heq (by simp)
    · rw [hdl] at heq
      cases out with
      | connectedAt p2 =>
          left
          simp only [Option.some.injEq, Prod.mk.injEq] at heq
          obtain ⟨h1, h2, _⟩ := heq
          subst h1
          subst h2
          exact ⟨rfl, rfl⟩
      | timedOut p2 =>
          right
          simp only [Option.some.injEq, Prod.mk.injEq] at heq
          obtain ⟨h1, h2, _⟩ := heq
          subst h1
          subst h2
          exact ⟨rfl, hconn⟩

/-- C2 witness: the dichotomy of the amended claim applied to the concrete
Periodic(3, 10ms) run that connects after two waits. -/
theorem amqpDial_retry_behavior_witness :
    ((none : Option AdapterErr) = none ∧
        ({ endpoint := ("E"), dialPolicy := Periodic 3 10000000, connected := true,
           conn := some (), notifier := (⟨[]⟩ : Notifier) } : AmqpState).connected
          = true) ∨
    ((none : Option AdapterErr) = some AdapterErr.timeout ∧
        ({ endpoint := ("E"), dialPolicy := Periodic 3 10000000, connected := true,
           conn := some (), notifier := (⟨[]⟩ : Notifier) } : AmqpState).connected
          = false) :=
  amqpDial_retry_behavior.2 8
    { endpoint := ("E"), dialPolicy := Periodic 3 10000000, connected := false,
      conn := none, notifier := ⟨[]⟩ } failTwiceBackend zeroDraws
    none
    { endpoint := ("E"), dialPolicy := Periodic 3 10000000, connected := true,
      conn := some (), notifier := ⟨[]⟩ } [10000000, 10000000] rfl rfl

/-- C5 counterexample: Config with a changed endpoint on a connected Redis
adapter fires the reset notification but re-initializes the pool via
setupPool and returns with the adapter still Connected, not Disconnected. -/
theorem redisConfig_changed_key_stays_connected :
    redisConfig
        { endpoint := ("localhost:3679"), password := (""), db := 0,
          connectionTimeout := 1000000000, dialPolicy := Periodic 1 1000000000,
          connected := true, pool := some 1, poolGen := 1, notifier := ⟨[7]⟩ }
        [(("endpoint"), ("other:1234"))]
      = (none,
         { endpoint := ("other:1234"), password := (""), db := 0,
           connectionTimeout := 1000000000,
           dialPolicy := ⟨PolicyKind.periodic 1 1000000000, 0⟩,
           connected := true, pool := some 2, poolGen := 2, notifier := ⟨[]⟩ },
         [NotifyEvent.closed 7]) := rfl

/-- C5: amended — Config with a present endpoint key on a connected AMQP
adapter closes the connection, fires exactly one reset notification to each
registered listener (each listener channel is closed without an error) and
leaves the adapter Disconnected; the same call on a connected Redis adapter
fires exactly one reset notification per listener but rebuilds the
connection pool and leaves the adapter Connected. -/
theorem config_changed_key_disconnect_or_rebuild :
    (∀ (s : AmqpState) (ps : List (String × String)) (v : String),
        s.connected = true → ps.lookup ("endpoint") = some v →
        amqpConfig s ps
          = (none,
             { s with endpoint := v, conn := none, connected := false,
                      notifier := ⟨[]⟩ },
             s.notifier.listeners.map NotifyEvent.closed)) ∧
    (∀ (s : RedisState) (v : String),
        s.connected = true →
        redisConfig s [(("endpoint"), v)]
          = (none,
             { s with endpoint := v, pool := some (s.poolGen + 1),
                      poolGen := s.poolGen + 1, connected := true,
                      dialPolicy := resetAttempts s.dialPolicy,
                      notifier := ⟨[]⟩ },
             s.notifier.listeners.map NotifyEvent.closed)) := by
  constructor
  · intro s ps v hc hep
    have h1 : amqpConfig s ps
        = (none,
           { s with endpoint := v, conn := none, connected := false,
                    notifier := ⟨[]⟩ },
           (Notifier.notifyAll s.notifier none).1) := by
      simp only [amqpConfig, hep]
      simp [hc, Notifier.notifyAll]
    rw [h1]
    simp only [Prod.mk.injEq]
    exact ⟨trivial, trivial, notify_none_events s.notifier.listeners⟩
  · intro s v hc
    have h1 : redisConfig s [(("endpoint"), v)]
        = (none,
           { s with endpoint := v, pool := some (s.poolGen + 1),
                    poolGen := s.poolGen + 1, connected := true,
                    dialPolicy := resetAttempts s.dialPolicy,
                    notifier := ⟨[]⟩ },
           (Notifier.notifyAll s.notifier none).1) := rfl
    rw [h1]
    simp only [Prod.mk.injEq]
    exact ⟨trivial, trivial, notify_none_events s.notifier.listeners⟩

/-- C5 witness: the AMQP half of the amended claim at a concrete connected
adapter with one registered listener and a changed endpoint. -/
theorem config_changed_key_disconnect_or_rebuild_witness :
    amqpConfig
        { endpoint := ("a"), dialPolicy := Periodic 1 5, connected := true,
          conn := some (), notifier := ⟨[3]⟩ } [(("endpoint"), ("b"))]
      = (none,
         { endpoint := ("b"), dialPolicy := Periodic 1 5, connected := false,
           conn := none, notifier := ⟨[]⟩ }, [NotifyEvent.closed 3]) :=
  config_changed_key_disconnect_or_rebuild.1
    { endpoint := ("a"), dialPolicy := Periodic 1 5, connected := true,
      conn := some (), notifier := ⟨[3]⟩ } [(("endpoint"), ("b"))] ("b") rfl rfl

/-- C6 counterexample: Redis.Config with a changed endpoint followed by a
malformed db value returns the configuration error but keeps the new
endpoint value it had already written — the call is not all-or-nothing. -/
theorem redisConfig_malformed_db_partial_update :
    redisConfig
        { endpoint := ("A"), password := (""), db := 0,
          connectionTimeout := 1000000000, dialPolicy := Periodic 1 5,
          connected := true, pool := some 1, poolGen := 1, notifier := ⟨[7]⟩ }
        [(("endpoint"), ("B")), (("db"), ("foo"))]
      = (some (AdapterErr.configInvalid ("db") ("foo")),
         { endpoint := ("B"), password := (""), db := 0,
           connectionTimeout := 1000000000, dialPolicy := Periodic 1 5,
           connected := true, pool := some 1, poolGen := 1, notifier := ⟨[7]⟩ },
         []) := rfl

/-- C6: amended — a malformed value for a recognized numeric key aborts
Redis.Config with a descriptive error, with no pool re-init and no
notification, and keys scanned after the malformed one stay unchanged; but
recognized keys scanned before the malformed one (endpoint and password for
a bad db; endpoint, password and db for a bad connTimeout) keep their
newly-assigned values — the call is not all-or-nothing. -/
theorem redisConfig_malformed_aborts_after_partial_scan :
    (∀ (s : RedisState) (ps : List (String × String)) (v : String),
        ps.lookup ("db") = some v → atoi v = none →
        redisConfig s ps
          = (some (AdapterErr.configInvalid ("db") v),
             { s with endpoint := (ps.lookup ("endpoint")).getD s.endpoint,
                      password := (ps.lookup ("password")).getD s.password },
             [])) ∧
    (∀ (s : RedisState) (ps : List (String × String)) (w : String),
        (∀ v, ps.lookup ("db") = some v → atoi v ≠ none) →
        ps.lookup ("connTimeout") = some w →
        atoi w = none →
        redisConfig s ps
          = (some (AdapterErr.configInvalid ("connTimeout") w),
             { s with endpoint := (ps.lookup ("endpoint")).getD s.endpoint,
                      password := (ps.lookup ("password")).getD s.password,
                      db := ((ps.lookup ("db")).bind atoi).getD s.db },
             [])) := by
  constructor
  · intro s ps v hdb hbad
    rcases he : ps.lookup ("endpoint") with _ | ev <;>
      rcases hp : ps.lookup ("password") with _ | pv <;>
        simp only [redisConfig, he, hp, hdb, hbad, Option.getD]
  · intro s ps w hdbok hct hbad
    rcases he : ps.lookup ("endpoint") with _ | ev <;>
      rcases hp : ps.lookup ("password") with _ | pv <;>
        rcases hd : ps.lookup ("db") with _ | dv
    all_goals
      first
      | (rcases hdn : atoi dv with _ | dn
         · exact absurd hdn (hdbok dv hd)
         · simp only [redisConfig, he, hp, hd, hdn, hct, hbad, Option.getD,
             Option.bind])
      | (simp only [redisConfig, he, hp, hd, hct, hbad, Option.getD,
          Option.bind])

/-- C6 witness: the connTimeout half of the amended claim at a concrete
adapter whose endpoint and db are both changed in the same call that carries
the malformed connTimeout value — both keys scanned before the malformed one
keep their newly-assigned values while the call still errors. -/
theorem redisConfig_malformed_aborts_after_partial_scan_witness :
    redisConfig
        { endpoint := ("A"), password := ("p"), db := 0,
          connectionTimeout := 1000000000, dialPolicy := Periodic 1 5,
          connected := false, pool := none, poolGen := 0, notifier := ⟨[2]⟩ }
        [(("endpoint"), ("C")), (("db"), ("5")), (("connTimeout"), ("zz"))]
      = (some (AdapterErr.configInvalid ("connTimeout") ("zz")),
         { endpoint := ("C"), password := ("p"), db := 5,
           connectionTimeout := 1000000000, dialPolicy := Periodic 1 5,
           connected := false, pool := none, poolGen := 0, notifier := ⟨[2]⟩ },
         []) :=
  redisConfig_malformed_aborts_after_partial_scan.2
    { endpoint := ("A"), password := ("p"), db := 0,
      connectionTimeout := 1000000000, dialPolicy := Periodic 1 5,
      connected := false, pool := none, poolGen := 0, notifier := ⟨[2]⟩ }
    [(("endpoint"), ("C")), (("db"), ("5")), (("connTimeout"), ("zz"))] ("zz")
    (fun v h => Option.some.inj h ▸ (by decide : atoi ("5") ≠ none)) rfl rfl

/-- C7 counterexample: Config marks the adapter changed whenever a recognized
key is present, without comparing values — a connected AMQP adapter given a
mapping that carries its current endpoint is disconnected and its registered
listener receives the reset notification. -/
theorem amqpConfig_unchanged_value_still_resets :
    amqpConfig
        { endpoint := ("E"), dialPolicy := Periodic 1 5, connected := true,
          conn := some (), notifier := ⟨[3]⟩ } [(("endpoint"), ("E"))]
      = (none,
         { endpoint := ("E"), dialPolicy := Periodic 1 5, connected := false,
           conn := none, notifier := ⟨[]⟩ }, [NotifyEvent.closed 3]) := rfl

/-- C7: amended — Config is a no-op (success, unchanged state, no
notification) exactly when no recognized key is present in the settings
mapping; a recognized key that is present counts as a change even when its
value equals the adapter's current one. -/
theorem config_without_recognized_keys_is_noop :
    (∀ (s : AmqpState) (ps : List (String × String)),
        ps.lookup ("endpoint") = none → amqpConfig s ps = (none, s, [])) ∧
    (∀ (s : RedisState) (ps : List (String × String)),
        ps.lookup ("endpoint") = none → ps.lookup ("password") = none →
        ps.lookup ("db") = none → ps.lookup ("connTimeout") = none →
        redisConfig s ps = (none, s, [])) := by
  constructor
  · intro s ps h
    simp only [amqpConfig, h]
  · intro s ps h1 h2 h3 h4
    simp only [redisConfig, h1, h2, h3, h4, redisConfigFinish]
    rfl

/-- C7 witness: the AMQP half of the amended claim on a connected adapter
given a mapping with no recognized key. -/
theorem config_without_recognized_keys_is_noop_witness :
    amqpConfig
        { endpoint := ("E"), dialPolicy := Periodic 1 5, connected := true,
          conn := some (), notifier := ⟨[3]⟩ } [(("other"), ("x"))]
      = (none,
         { endpoint := ("E"), dialPolicy := Periodic 1 5, connected := true,
           conn := some (), notifier := ⟨[3]⟩ }, []) :=
  config_without_recognized_keys_is_noop.1
    { endpoint := ("E"), dialPolicy := Periodic 1 5, connected := true,
      conn := some (), notifier := ⟨[3]⟩ } [(("other"), ("x"))] rfl

/-- C8 counterexample: Etcd.Close has no connected guard — on an already
disconnected adapter with a registered listener it still notifies the
listener with the clean-shutdown error, so a repeated Close is not a no-op
for every adapter. -/
theorem etcdClose_disconnected_still_notifies :
    etcdClose
        { hosts := [("h")], connected := false, dialPolicy := Periodic 1 5,
          notifier := ⟨[4]⟩ }
      = ({ hosts := [("h")], connected := false, dialPolicy := Periodic 1 5,
           notifier := ⟨[]⟩ },
         [NotifyEvent.recv 4 AdapterErr.connectionClosed,
          NotifyEvent.closed 4]) := rfl

/-- C8: amended — Close on a not-connected adapter (including a second
consecutive Close) is a no-op with no notification for the AMQP and Redis
adapters; the etcd adapter's Close instead unconditionally closes the client
and notifies every currently-registered listener with the clean-shutdown
error, even when already disconnected. -/
theorem close_second_call_noop_amqp_redis :
    (∀ s : AmqpState, s.connected = false → amqpClose s = (s, [])) ∧
    (∀ s : RedisState, s.connected = false → redisClose s = (s, [])) ∧
    (∀ s : EtcdState,
        etcdClose s
          = ({ s with connected := false, notifier := ⟨[]⟩ },
             (Notifier.notifyAll s.notifier
                (some AdapterErr.connectionClosed)).1)) := by
  refine ⟨?_, ?_, ?_⟩
  · intro s h
    simp [amqpClose, h]
  · intro s h
    simp [redisClose, h]
  · intro s
    rfl

/-- C8 witness: the AMQP half of the amended claim on a disconnected adapter
that still has a registered listener. -/
theorem close_second_call_noop_amqp_redis_witness :
    amqpClose
        { endpoint := ("E"), dialPolicy := Periodic 1 5, connected := false,
          conn := none, notifier := ⟨[9]⟩ }
      = ({ endpoint := ("E"), dialPolicy := Periodic 1 5, connected := false,
           conn := none, notifier := ⟨[9]⟩ }, []) :=
  close_second_call_noop_amqp_redis.1
    { endpoint := ("E"), dialPolicy := Periodic 1 5, connected := false,
      conn := none, notifier := ⟨[9]⟩ } rfl

/-- C9 counterexample: Dial on an already-connected adapter returns the
AlreadyConnected error on the AMQP adapter but benign success (nil) on the
etcd adapter — the outcome is not the same across the implementation. -/
theorem dial_connected_outcome_differs :
    amqpDial 1
        { endpoint := ("E"), dialPolicy := Periodic 1 5, connected := true,
          conn := some (), notifier := ⟨[]⟩ } failTwiceBackend zeroDraws
      = some (some AdapterErr.alreadyConnected,
          { endpoint := ("E"), dialPolicy := Periodic 1 5, connected := true,
            conn := some (), notifier := ⟨[]⟩ }, []) ∧
    etcdDial 1
        { hosts := [("h")], connected := true, dialPolicy := Periodic 1 5,
          notifier := ⟨[]⟩ } failTwiceBackend zeroDraws
      = some (none,
          { hosts := [("h")], connected := true, dialPolicy := Periodic 1 5,
            notifier := ⟨[]⟩ }, []) ∧
    some AdapterErr.alreadyConnected ≠ (none : Option AdapterErr) := by
  refine ⟨rfl, rfl, by simp⟩

/-- C9: amended — Dial on a Connected adapter leaves the whole state
unchanged, attempts no backend connect and makes no NextRetry call, and each
adapter returns one fixed, deterministic outcome; but the outcome differs
between adapters: AMQP and Redis return the AlreadyConnected error while
etcd returns benign success. -/
theorem dial_connected_frame_and_outcomes :
    (∀ (fuel : Nat) (s : AmqpState) (b : Nat → Bool) (rnd : Nat → Nat),
        s.connected = true →
        amqpDial fuel s b rnd
          = some (some AdapterErr.alreadyConnected, s, [])) ∧
    (∀ s : RedisState, s.connected = true →
        redisDial s = (some AdapterErr.alreadyConnected, s)) ∧
    (∀ (fuel : Nat) (s : EtcdState) (b : Nat → Bool) (rnd : Nat → Nat),
        s.connected = true →
        etcdDial fuel s b rnd = some (none, s, [])) := by
  refine ⟨?_, ?_, ?_⟩
  · intro fuel s b rnd h
    simp [amqpDial, h]
  · intro s h
    simp [redisDial, h]
  · intro fuel s b rnd h
    simp [etcdDial, h]

/-- C9 witness: the AMQP half of the amended claim at a concrete connected
adapter. -/
theorem dial_connected_frame_and_outcomes_witness :
    amqpDial 5
        { endpoint := ("E"), dialPolicy := Periodic 1 5, connected := true,
          conn := some (), notifier := ⟨[]⟩ } failTwiceBackend zeroDraws
      = some (some AdapterErr.alreadyConnected,
          { endpoint := ("E"), dialPolicy := Periodic 1 5, connected := true,
            conn := some (), notifier := ⟨[]⟩ }, []) :=
  dial_connected_frame_and_outcomes.1 5
    { endpoint := ("E"), dialPolicy := Periodic 1 5, connected := true,
      conn := some (), notifier := ⟨[]⟩ } failTwiceBackend zeroDraws rfl

theorem redisConfigFinish_true_projs (s2 : RedisState) :
    (redisConfigFinish s2 true).1 = none ∧
    (redisConfigFinish s2 true).2.1.connected = true ∧
    (redisConfigFinish s2 true).2.1.pool = some (s2.poolGen + 1) ∧
    (redisConfigFinish s2 true).2.1.poolGen = s2.poolGen + 1 ∧
    (redisConfigFinish s2 true).2.1.dialPolicy = resetAttempts s2.dialPolicy ∧
    (redisConfigFinish s2 true).2.2
      = s2.notifier.listeners.map NotifyEvent.closed :=
  ⟨rfl, rfl, rfl, rfl, rfl, notify_none_events s2.notifier.listeners⟩

/-- C10: on the usrv Redis adapter, every Config call whose settings mapping
contains at least one recognized key — with well-formed numeric values for
whichever of db and connTimeout are present — succeeds and leaves the
adapter Connected with a freshly rebuilt connection pool and a reset dial
policy, and fires the reset notification (NotifyAll with nil) to every
registered listener, regardless of the prior connection state. -/
theorem redisConfig_rebuilds_pool_and_notifies (s : RedisState)
    (ps : List (String × String))
    (hrec : ps.lookup ("endpoint") ≠ none ∨ ps.lookup ("password") ≠ none ∨
            ps.lookup ("db") ≠ none ∨ ps.lookup ("connTimeout") ≠ none)
    (hdb : ∀ v, ps.lookup ("db") = some v → atoi v ≠ none)
    (hct : ∀ v, ps.lookup ("connTimeout") = some v → atoi v ≠ none) :
    (redisConfig s ps).1 = none ∧
    (redisConfig s ps).2.1.connected = true ∧
    (redisConfig s ps).2.1.pool = some (s.poolGen + 1) ∧
    (redisConfig s ps).2.1.poolGen = s.poolGen + 1 ∧
    (redisConfig s ps).2.1.dialPolicy = resetAttempts s.dialPolicy ∧
    (redisConfig s ps).2.2 = s.notifier.listeners.map NotifyEvent.closed := by
  rcases he : ps.lookup ("endpoint") with _ | ev <;>
    rcases hp : ps.lookup ("password") with _ | pv <;>
      rcases hd : ps.lookup ("db") with _ | dv <;>
        rcases hc : ps.lookup ("connTimeout") with _ | cv
  all_goals
    first
    | (rcases hrec with h | h | h | h
       · exact absurd he h
       · exact absurd hp h
       · exact absurd hd h
       · exact absurd hc h)
    | (rcases hdn : atoi dv with _ | dn
       · exact absurd hdn (hdb dv hd)
       · rcases hcn : atoi cv with _ | cn
         · exact absurd hcn (hct cv hc)
         · simp only [redisConfig, he, hp, hd, hc, hdn, hcn]
           exact redisConfigFinish_true_projs _)
    | (rcases hdn : atoi dv with _ | dn
       · exact absurd hdn (hdb dv hd)
       · simp only [redisConfig, he, hp, hd, hc, hdn]
         exact redisConfigFinish_true_projs _)
    | (rcases hcn : atoi cv with _ | cn
       · exact absurd hcn (hct cv hc)
       · simp only [redisConfig, he, hp, hd, hc, hcn]
         exact redisConfigFinish_true_projs _)
    | (simp only [redisConfig, he, hp, hd, hc]
       exact redisConfigFinish_true_projs _)

/- A disconnected Redis adapter with one registered listener, and a settings
   mapping that touches only the endpoint key: sample inputs on which Config
   re-initializes the pool and notifies despite the Disconnected start. -/
def redisSample : RedisState :=
  { endpoint := ("localhost:3679"), password := (""), db := 0,
    connectionTimeout := 1000000000, dialPolicy := Periodic 1 1000000000,
    connected := false, pool := none, poolGen := 0, notifier := ⟨[5]⟩ }

def redisSampleParams : List (String × String) :=
  [(("endpoint"), ("10.0.0.1:6379"))]

/-- C10 witness: the theorem applied to a Redis adapter that starts
Disconnected and is given a new endpoint. -/
theorem redisConfig_rebuilds_pool_and_notifies_witness :
    (redisConfig redisSample redisSampleParams).1 = none ∧
    (redisConfig redisSample redisSampleParams).2.1.connected = true ∧
    (redisConfig redisSample redisSampleParams).2.1.pool
      = some (redisSample.poolGen + 1) ∧
    (redisConfig redisSample redisSampleParams).2.1.poolGen
      = redisSample.poolGen + 1 ∧
    (redisConfig redisSample redisSampleParams).2.1.dialPolicy
      = resetAttempts redisSample.dialPolicy ∧
    (redisConfig redisSample redisSampleParams).2.2
      = redisSample.notifier.listeners.map NotifyEvent.closed :=
  redisConfig_rebuilds_pool_and_notifies redisSample redisSampleParams
    (Or.inl (fun h => nomatch h)) (fun _v h => nomatch h) (fun _v h => nomatch h)
